import Mathlib

/-!
Shallow embedding of the brain-app backend (TypeScript/Express/Mongoose) core:
content-type validation (POST /api/v1/content together with the Content
schema's setters, validators and its save hook), the share-link lifecycle
(POST /api/v1/brain/share, GET /api/v1/brain/:shareLink), content deletion
(DELETE /api/v1/content) and the token generator `random` from utils.ts.

JavaScript strings are modelled as Lean `String`; a field that may be
`undefined` is an `Option String`, with `none` for `undefined`.  JS
truthiness of such a field: `undefined` and `""` are falsy, every other
string is truthy.
-/

/-- Whitespace recognised by JavaScript `String.prototype.trim` (the
WhiteSpace and LineTerminator productions; the common representatives). -/
def jsWhitespace (c : Char) : Bool :=
  c = ' ' || c = '\t' || c = '\n' || c = '\r' ||
  c = '\x0b' || c = '\x0c' || c = '\u00A0' || c = '\uFEFF' ||
  c = '\u2028' || c = '\u2029'

/-- Leading-whitespace removal on character lists. -/
def trimLeftList (cs : List Char) : List Char := cs.dropWhile jsWhitespace

/-- Trailing-whitespace removal on character lists. -/
def trimRightList (cs : List Char) : List Char :=
  (cs.reverse.dropWhile jsWhitespace).reverse

/-- Model of JavaScript `s.trim()`. -/
def jsTrim (s : String) : String :=
  String.mk (trimRightList (trimLeftList s.data))

/-- JS truthiness of a possibly-undefined string field:
`undefined` and the empty string are falsy. -/
def jsTruthy : Option String → Bool
  | none => false
  | some s => !(s == "")

/-- Truthiness of an optional string already stored on a document
(mongoose leaves an unset path `undefined`). -/
def truthyOpt : Option String → Bool
  | none => false
  | some s => !(s == "")

/-- Line terminators, which `.` in a JS regex does not match. -/
def jsLineTerm (c : Char) : Bool :=
  c = '\n' || c = '\r' || c = '\u2028' || c = '\u2029'

/-- Does the regex `.+` match (anchored) at this remainder of the subject? -/
def dotPlusAt : Option (List Char) → Bool
  | none => false
  | some [] => false
  | some (c :: _) => !jsLineTerm c

/-- Remainder of `s` after the literal prefix `pre`, when `pre` is a prefix. -/
def restAfter (pre s : List Char) : Option (List Char) :=
  if pre.isPrefixOf s then some (s.drop pre.length) else none

/-- Model of `/^https?:\/\/.+/.test s` from the Content schema's link
validator. -/
def matchesUrlRegex (s : String) : Bool :=
  dotPlusAt (restAfter "http://".data s.data) ||
  dotPlusAt (restAfter "https://".data s.data)

/-- The `validTypes` list of the POST /api/v1/content handler (also the
schema enum). -/
def validTypes : List String :=
  ["linkedin", "twitter", "instagram", "youtube", "pinterest", "documents", "other"]

/-- The social-media types checked by the schema's save hook. -/
def socialTypes : List String :=
  ["linkedin", "twitter", "instagram", "youtube", "pinterest"]

/-- A multer upload (`req.file`). -/
structure UploadedFile where
  originalname : String
  path : String
  size : Nat
deriving DecidableEq

/-- The request seen by the POST /api/v1/content handler: the body fields
(strings or `undefined`), the optional upload, and the authenticated user
id attached by the middleware. -/
structure ContentReq where
  userId : String
  title : Option String
  link : Option String
  rtype : Option String
  description : Option String
  file : Option UploadedFile
deriving DecidableEq

/-- The document handed to `ContentModel.create` (the `contentData` object
built by the handler), and also the shape of the stored document. -/
structure ContentData where
  title : String
  link : Option String
  description : String
  ctype : String
  fileName : Option String
  filePath : Option String
  fileSize : Option Nat
  tags : List String
  userId : String
deriving DecidableEq

/-- Outcome of `ContentModel.create`: saved document, a mongoose
`ValidationError` (from the schema validators), or the plain `Error`
thrown by the `pre('save')` hook (whose `name` is `Error`, not
`ValidationError`). -/
inductive DbOutcome where
  | saved (c : ContentData)
  | validationError
  | hookError
deriving DecidableEq

/-- Mongoose setters: `trim: true` on title, link, description, fileName
and filePath. -/
def applySchema (d : ContentData) : ContentData :=
  { d with
    title := jsTrim d.title
    link := d.link.map jsTrim
    description := jsTrim d.description
    fileName := d.fileName.map jsTrim
    filePath := d.filePath.map jsTrim }

/-- The link validator: empty is allowed, otherwise the URL regex must
match. -/
def linkFieldOk : Option String → Bool
  | none => true
  | some l => (l == "") || matchesUrlRegex l

/-- The fileSize bounds: `min 0, max 10485760`. -/
def fileSizeOk : Option Nat → Bool
  | none => true
  | some n => decide (n ≤ 10485760)

/-- The schema validators of ContentSchema, run (after the setters) before
any user save hook: title required and at most 200 characters, link
URL-shaped when non-empty, description at most 1000 characters, fileSize
at most 10 MiB, type in the enum.  (userId is always set by the handler.) -/
def validateSchema (e : ContentData) : Bool :=
  (!(e.title == "")) && decide (e.title.length ≤ 200) &&
  linkFieldOk e.link && decide (e.description.length ≤ 1000) &&
  fileSizeOk e.fileSize && validTypes.contains e.ctype

/-- The `pre('save')` hook of ContentSchema: social types need truthy link
and description, documents need a truthy fileName or link, `other` needs a
truthy link or description.  Returns `true` when the hook calls `next()`
with no error. -/
def preSaveOk (e : ContentData) : Bool :=
  !(socialTypes.contains e.ctype && (!truthyOpt e.link || (e.description == ""))) &&
  !((e.ctype == "documents") && !truthyOpt e.fileName && !truthyOpt e.link) &&
  !((e.ctype == "other") && !truthyOpt e.link && (e.description == ""))

/-- Model of `ContentModel.create`: setters, then schema validation, then
the save hook. -/
def contentModelCreate (d : ContentData) : DbOutcome :=
  if validateSchema (applySchema d) then
    if preSaveOk (applySchema d) then .saved (applySchema d) else .hookError
  else .validationError

/-- Response of the POST /api/v1/content handler.  `badRequest` carries the
handler's own 400 message; `dbValidationError` is the 400 produced when
`ContentModel.create` rejects with a `ValidationError`; `serverError` is
the 500 path (taken in particular when the save hook throws a plain
`Error`, whose `name` is not `ValidationError`). -/
inductive CreateResp where
  | created (c : ContentData)
  | badRequest (msg : String)
  | dbValidationError
  | serverError
deriving DecidableEq

/-- The `contentData` object the handler builds before calling
`ContentModel.create`: title and description trimmed (with empty-string
fallback), link only when its trim is truthy, file metadata when a file
was uploaded, tags always empty. -/
def mkContentData (req : ContentReq) (ty : String) : ContentData :=
  { title := jsTrim (req.title.getD "")
    ctype := ty
    userId := req.userId
    description := jsTrim (req.description.getD "")
    link := match req.link with
      | some l => if jsTrim l = "" then none else some (jsTrim l)
      | none => none
    fileName := req.file.map (·.originalname)
    filePath := req.file.map (·.path)
    fileSize := req.file.map (·.size)
    tags := [] }

/-- The POST /api/v1/content handler. -/
def handleCreateContent (req : ContentReq) : CreateResp :=
  if !jsTruthy req.title || !jsTruthy req.rtype then
    .badRequest "Title and type are required"
  else
    let ty := req.rtype.getD ""
    if !validTypes.contains ty then
      .badRequest ("Invalid type. Must be one of: " ++ String.intercalate ", " validTypes)
    else if (ty == "documents") && req.file.isNone && !jsTruthy req.link then
      .badRequest "For documents: either upload a file OR provide a link"
    else if (ty == "other") && !jsTruthy req.link && !jsTruthy req.description then
      .badRequest "For other type: either link OR description is required"
    else if !((ty == "documents") || (ty == "other")) &&
            (!jsTruthy req.link || !jsTruthy req.description) then
      .badRequest "For social media types: title, link, and description are all required"
    else
      match contentModelCreate (mkContentData req ty) with
      | .saved c => .created c
      | .validationError => .dbValidationError
      | .hookError => .serverError

/-- Did the request create a content record (HTTP 201)? -/
def isCreated : CreateResp → Bool
  | .created _ => true
  | _ => false

/-- The link field of the request body, with `undefined` read as empty. -/
def rawLink (req : ContentReq) : String := req.link.getD ""

/-- The description field of the request body, with `undefined` read as
empty. -/
def rawDesc (req : ContentReq) : String := req.description.getD ""

/-- A Share-Link record (LinkModel): the opaque hash and the owning user.
The store enforces a unique index on both `hash` and `userId`. -/
structure LinkRec where
  userId : String
  hash : String
deriving DecidableEq

/-- A JavaScript value as it may appear in the `share` field of the body of
POST /api/v1/brain/share (NaN is not represented; it is falsy like 0). -/
inductive JSVal where
  | undefv
  | nullv
  | boolv (b : Bool)
  | strv (s : String)
  | numv (n : Int)
deriving DecidableEq

/-- JS truthiness of such a value. -/
def JSVal.truthy : JSVal → Bool
  | .undefv => false
  | .nullv => false
  | .boolv b => b
  | .strv s => !(s == "")
  | .numv n => !(n == 0)

/-- Response of POST /api/v1/brain/share: the hash of a freshly created
link, the hash of an already existing link, or the removal message
(the handler embeds the hash in a `BACKEND_URL/api/v1/brain/hash` URL). -/
inductive ShareResp where
  | linkCreated (hash : String)
  | linkExists (hash : String)
  | linkRemoved
deriving DecidableEq

/-- The hash carried by a share response, if any. -/
def ShareResp.hash? : ShareResp → Option String
  | .linkCreated h => some h
  | .linkExists h => some h
  | .linkRemoved => none

/-- Model of `LinkModel.deleteOne {userId}`: removes the first matching
record (MongoDB deleteOne removes at most one document). -/
def deleteOneByUser : List LinkRec → String → List LinkRec
  | [], _ => []
  | l :: ls, uid => if l.userId == uid then ls else l :: deleteOneByUser ls uid

/-- Number of Share-Link records owned by a user. -/
def countLinks (links : List LinkRec) (uid : String) : Nat :=
  links.countP (fun l => l.userId == uid)

/-- The POST /api/v1/brain/share handler, as a function of the current
Share-Link collection, the authenticated user, the body's `share` value and
the string the token generator returns on this request.  Returns the new
collection and the response. -/
def shareHandler (links : List LinkRec) (uid : String) (share : JSVal)
    (fresh : String) : List LinkRec × ShareResp :=
  if share.truthy then
    match links.find? (fun l => l.userId == uid) with
    | some l => (links, .linkExists l.hash)
    | none => (links ++ [⟨uid, fresh⟩], .linkCreated fresh)
  else
    (deleteOneByUser links uid, .linkRemoved)

/-- The 62-symbol alphabet of `random` in utils.ts. -/
def randomOptions : String :=
  "ABCDEFGHIJKLMNOPQRSTUVWXYZabcdefghijklmnopqrstuvwxyz0123456789"

/-- Model of `random(len)` from utils.ts.  The call
`Math.floor(Math.random() * options.length)` always lands in
`[0, 62)` because `Math.random()` is in `[0, 1)`; the oracle `rand` gives
the outcome of the i-th draw. -/
def randomStr (rand : Nat → Fin 62) (len : Nat) : String :=
  String.mk ((List.range len).map fun i =>
    randomOptions.data.get (Fin.cast (by decide) (rand i)))

/-- The share endpoint with the token generator plugged in: on the create
path the handler calls `random(10)`. -/
def shareEndpoint (rand : Nat → Fin 62) (links : List LinkRec) (uid : String)
    (share : JSVal) : List LinkRec × ShareResp :=
  shareHandler links uid share (randomStr rand 10)

/-- A stored user document. -/
structure UserRec where
  id : String
  username : String
  password : String
deriving DecidableEq

/-- A stored content document for the read-side endpoints (brain
resolution, deletion): its id, its owner, and the payload fields. -/
structure ContentDoc where
  id : String
  userId : String
  title : String
  link : Option String
  description : String
  ctype : String
  fileName : Option String
  filePath : Option String
  fileSize : Option Nat
deriving DecidableEq

/-- Response of GET /api/v1/brain/:shareLink: 411 "Sorry, input is
invalid" when no link record carries the hash, 411 "User not found" when
the owner's user document is missing, else the owner's username with all
of the owner's content. -/
inductive BrainResp where
  | invalidInput
  | userNotFound
  | ok (username : String) (content : List ContentDoc)
deriving DecidableEq

/-- The GET /api/v1/brain/:shareLink handler. -/
def getBrain (links : List LinkRec) (users : List UserRec)
    (contents : List ContentDoc) (hash : String) : BrainResp :=
  match links.find? (fun l => l.hash == hash) with
  | none => .invalidInput
  | some l =>
    match users.find? (fun u => u.id == l.userId) with
    | none => .userNotFound
    | some u => .ok u.username (contents.filter (fun c => c.userId == l.userId))

/-- Response of DELETE /api/v1/content: 400 when contentId is falsy, 404
"Content not found or unauthorized" when no record matches both id and
owner, else success. -/
inductive DeleteResp where
  | badRequest
  | notFound
  | deleted
deriving DecidableEq

/-- Model of `ContentModel.deleteOne {_id, userId}`: removes the first
record matching both. -/
def deleteOneContent : List ContentDoc → String → String → List ContentDoc
  | [], _, _ => []
  | c :: cs, cid, uid =>
    if c.id == cid && c.userId == uid then cs
    else c :: deleteOneContent cs cid uid

/-- The DELETE /api/v1/content handler (the file unlink on the success
path touches the filesystem only and is not modelled). -/
def deleteContentHandler (contents : List ContentDoc) (uid : String)
    (contentId : Option String) : List ContentDoc × DeleteResp :=
  if !jsTruthy contentId then (contents, .badRequest)
  else
    let cid := contentId.getD ""
    match contents.find? (fun c => c.id == cid && c.userId == uid) with
    | none => (contents, .notFound)
    | some _ => (deleteOneContent contents cid uid, .deleted)

theorem dropWhile_head_false {α : Type} {p : α → Bool} {l : List α} {a : α}
    (h : (l.dropWhile p).head? = some a) : p a = false := by
  induction l with
  | nil => simp [List.dropWhile] at h
  | cons b t ih =>
    by_cases hb : p b
    · rw [List.dropWhile_cons_of_pos hb] at h
      exact ih h
    · rw [List.dropWhile_cons_of_neg hb] at h
      simp only [List.head?_cons, Option.some.injEq] at h
      subst h
      simpa using hb

theorem dropWhile_eq_self_of_head {α : Type} {p : α → Bool} {l : List α}
    (h : ∀ a, l.head? = some a → p a = false) : l.dropWhile p = l := by
  cases l with
  | nil => rfl
  | cons b t =>
    have hb := h b rfl
    simp [List.dropWhile_cons, hb]

theorem dropWhile_idem {α : Type} {p : α → Bool} {l : List α} :
    (l.dropWhile p).dropWhile p = l.dropWhile p := by
  apply dropWhile_eq_self_of_head
  intro a ha
  exact dropWhile_head_false ha

theorem trimRightList_prefix (l : List Char) : trimRightList l <+: l := by
  have hsuf : l.reverse.dropWhile jsWhitespace <:+ l.reverse :=
    ⟨l.reverse.takeWhile jsWhitespace,
      List.takeWhile_append_dropWhile jsWhitespace l.reverse⟩
  have := List.reverse_prefix.mpr hsuf
  simpa [trimRightList] using this

theorem head?_of_prefix {α : Type} {l₁ l₂ : List α} (h : l₁ <+: l₂)
    (hne : l₁ ≠ []) : l₂.head? = l₁.head? := by
  obtain ⟨t, rfl⟩ := h
  cases l₁ with
  | nil => exact absurd rfl hne
  | cons a s => rfl

theorem trimLeft_of_trimRight_trimLeft (l : List Char) :
    trimLeftList (trimRightList (trimLeftList l)) =
      trimRightList (trimLeftList l) := by
  have hpre := trimRightList_prefix (trimLeftList l)
  cases htr : trimRightList (trimLeftList l) with
  | nil => rfl
  | cons a t =>
    apply dropWhile_eq_self_of_head
    intro b hb
    simp only [List.head?_cons, Option.some.injEq] at hb
    subst hb
    rw [htr] at hpre
    have hhead : (trimLeftList l).head? = some a :=
      head?_of_prefix hpre (by simp)
    exact dropWhile_head_false hhead

theorem trimRightList_idem (l : List Char) :
    trimRightList (trimRightList l) = trimRightList l := by
  unfold trimRightList
  rw [List.reverse_reverse, dropWhile_idem]

theorem jsTrim_idem (s : String) : jsTrim (jsTrim s) = jsTrim s := by
  unfold jsTrim
  rw [show (String.mk (trimRightList (trimLeftList s.data))).data =
        trimRightList (trimLeftList s.data) from rfl,
      trimLeft_of_trimRight_trimLeft, trimRightList_idem]

theorem jsTrim_empty : jsTrim "" = "" := rfl

theorem ne_empty_of_jsTrim {s : String} (h : jsTrim s ≠ "") : s ≠ "" := by
  intro hs
  exact h (hs ▸ jsTrim_empty)

theorem find?_append_none {α : Type} {p : α → Bool} {l₁ l₂ : List α}
    (h : l₁.find? p = none) : (l₁ ++ l₂).find? p = l₂.find? p := by
  induction l₁ with
  | nil => simp
  | cons a t ih =>
    cases hp : p a with
    | true => simp [List.find?, hp] at h
    | false =>
      simp only [List.find?, hp] at h
      simpa [List.find?, hp] using ih h

theorem countLinks_cons (l : LinkRec) (ls : List LinkRec) (uid : String) :
    countLinks (l :: ls) uid =
      countLinks ls uid + (if l.userId == uid then 1 else 0) := by
  simp [countLinks, List.countP_cons]

theorem deleteOneByUser_cons_hit {l : LinkRec} {ls : List LinkRec}
    {uid : String} (h : (l.userId == uid) = true) :
    deleteOneByUser (l :: ls) uid = ls := by
  simp [deleteOneByUser, h]

theorem deleteOneByUser_cons_miss {l : LinkRec} {ls : List LinkRec}
    {uid : String} (h : (l.userId == uid) = false) :
    deleteOneByUser (l :: ls) uid = l :: deleteOneByUser ls uid := by
  simp [deleteOneByUser, h]

theorem countLinks_deleteOneByUser {links : List LinkRec} {uid : String}
    (h : countLinks links uid ≤ 1) :
    countLinks (deleteOneByUser links uid) uid = 0 := by
  induction links with
  | nil => rfl
  | cons l ls ih =>
    rw [countLinks_cons] at h
    cases hl : l.userId == uid with
    | true =>
      rw [deleteOneByUser_cons_hit hl]
      rw [hl] at h
      simp only [if_true] at h
      omega
    | false =>
      rw [deleteOneByUser_cons_miss hl, countLinks_cons, hl]
      rw [hl] at h
      simp only [if_false, Bool.false_eq_true] at h ⊢
      have := ih (by omega)
      omega

theorem deleteOneByUser_not_mem {links : List LinkRec} {uid : String}
    (h : ∀ l ∈ links, l.userId ≠ uid) : deleteOneByUser links uid = links := by
  induction links with
  | nil => rfl
  | cons l ls ih =>
    have hb : (l.userId == uid) = false :=
      beq_eq_false_iff_ne.mpr (h l (by simp))
    rw [deleteOneByUser_cons_miss hb, ih (fun x hx => h x (by simp [hx]))]

theorem deleteOneByUser_append_one {links : List LinkRec} {uid : String}
    {l0 : LinkRec} (h : ∀ l ∈ links, l.userId ≠ uid) (h0 : l0.userId = uid) :
    deleteOneByUser (links ++ [l0]) uid = links := by
  induction links with
  | nil =>
    have hb : (l0.userId == uid) = true := beq_iff_eq.mpr h0
    simpa using @deleteOneByUser_cons_hit l0 [] uid hb
  | cons l ls ih =>
    have hb : (l.userId == uid) = false :=
      beq_eq_false_iff_ne.mpr (h l (by simp))
    rw [List.cons_append, deleteOneByUser_cons_miss hb,
      ih (fun x hx => h x (by simp [hx]))]

theorem shareHandler_truthy_found {links : List LinkRec} {uid : String}
    {v : JSVal} {fresh : String} {l : LinkRec} (hv : v.truthy = true)
    (h : List.find? (fun l => l.userId == uid) links = some l) :
    shareHandler links uid v fresh = (links, .linkExists l.hash) := by
  unfold shareHandler
  rw [hv, h]
  rfl

theorem shareHandler_truthy_none {links : List LinkRec} {uid : String}
    {v : JSVal} {fresh : String} (hv : v.truthy = true)
    (h : List.find? (fun l => l.userId == uid) links = none) :
    shareHandler links uid v fresh = (links ++ [⟨uid, fresh⟩], .linkCreated fresh) := by
  unfold shareHandler
  rw [hv, h]
  rfl

theorem shareHandler_falsy {links : List LinkRec} {uid : String}
    {v : JSVal} {fresh : String} (hv : v.truthy = false) :
    shareHandler links uid v fresh = (deleteOneByUser links uid, .linkRemoved) := by
  unfold shareHandler
  rw [hv]
  simp

/-- C9: for every draw oracle and every length, `random` returns a string
of exactly that length whose characters all come from the 62-symbol
alphanumeric alphabet (uppercase, lowercase, digits); in particular every
freshly generated share hash (`random(10)`) is 10 alphanumeric
characters. -/
theorem random_length_and_alphabet (rand : Nat → Fin 62) (len : Nat) :
    (randomStr rand len).length = len ∧
    ∀ c ∈ (randomStr rand len).data, c ∈ randomOptions.data := by
  constructor
  · show (List.map _ (List.range len)).length = len
    rw [List.length_map, List.length_range]
  · intro c hc
    simp only [randomStr, List.mem_map, List.mem_range] at hc
    obtain ⟨i, _, rfl⟩ := hc
    exact List.get_mem _ _ _

/-- Witness for C9 at a concrete oracle and length. -/
theorem random_length_and_alphabet_witness :
    (randomStr (fun _ => (0 : Fin 62)) 10).length = 10 :=
  (random_length_and_alphabet (fun _ => (0 : Fin 62)) 10).1

/-- C10: a share request whose `share` field is any falsy JS value
(absent, null, false, 0, empty string) takes the revocation branch: the
handler deletes the user's Share-Link record (if any) via deleteOne and
reports the removal success message; under the store's
one-record-per-user invariant no record for the user remains; and every
truthy `share` value takes the create/idempotent-return branch instead
(its response is never the removal message). -/
theorem share_falsy_revokes (links : List LinkRec) (uid : String) (v : JSVal)
    (fresh : String) (hv : v.truthy = false)
    (hcount : countLinks links uid ≤ 1) :
    shareHandler links uid v fresh = (deleteOneByUser links uid, .linkRemoved) ∧
    countLinks (deleteOneByUser links uid) uid = 0 ∧
    ∀ w : JSVal, w.truthy = true →
      (shareHandler links uid w fresh).2 ≠ .linkRemoved := by
  refine ⟨shareHandler_falsy hv, countLinks_deleteOneByUser hcount, ?_⟩
  intro w hw
  cases hf : List.find? (fun l => l.userId == uid) links with
  | some l => rw [shareHandler_truthy_found hw hf]; simp
  | none => rw [shareHandler_truthy_none hw hf]; simp

/-- Witness for C10: a body with `share` absent (`undefined`) deletes the
existing record. -/
theorem share_falsy_revokes_witness :
    shareHandler [⟨"u1", "h1"⟩] "u1" .undefv "g" =
      (deleteOneByUser [⟨"u1", "h1"⟩] "u1", .linkRemoved) :=
  (share_falsy_revokes [⟨"u1", "h1"⟩] "u1" .undefv "g" (by decide) (by decide)).1

/-- C4: from a state with no Share-Link record for the user, share(true)
creates a record with the fresh hash, and a second share(true) generates
no new token: it answers with the hash the first call returned, leaves
the store unchanged, and exactly one record for the user exists
afterwards (the state stays Linked). -/
theorem share_true_twice_idempotent (links : List LinkRec) (uid f1 f2 : String)
    (h0 : ∀ l ∈ links, l.userId ≠ uid) :
    (shareHandler links uid (.boolv true) f1).2 = .linkCreated f1 ∧
    (shareHandler (shareHandler links uid (.boolv true) f1).1 uid
        (.boolv true) f2).2 = .linkExists f1 ∧
    (shareHandler (shareHandler links uid (.boolv true) f1).1 uid
        (.boolv true) f2).1 = (shareHandler links uid (.boolv true) f1).1 ∧
    countLinks (shareHandler (shareHandler links uid (.boolv true) f1).1 uid
        (.boolv true) f2).1 uid = 1 := by
  have hfind : List.find? (fun l => l.userId == uid) links = none :=
    List.find?_eq_none.mpr (fun x hx => by simpa using h0 x hx)
  have h1 := @shareHandler_truthy_none links uid (.boolv true) f1 rfl hfind
  have hfind2 : List.find? (fun l => l.userId == uid)
      (links ++ [⟨uid, f1⟩]) = some ⟨uid, f1⟩ := by
    rw [find?_append_none hfind]
    simp [List.find?]
  have h2 := @shareHandler_truthy_found (links ++ [⟨uid, f1⟩]) uid
    (.boolv true) f2 ⟨uid, f1⟩ rfl hfind2
  have hz : links.countP (fun l => l.userId == uid) = 0 :=
    List.countP_eq_zero.mpr (fun x hx => by simpa using h0 x hx)
  rw [h1]
  simp [h2, countLinks, List.countP_append, hz, List.countP_cons]

/-- Witness for C4 starting from the empty store. -/
theorem share_true_twice_idempotent_witness :
    (shareHandler (shareHandler [] "u1" (.boolv true) "h1").1 "u1"
        (.boolv true) "h2").2 = .linkExists "h1" :=
  (share_true_twice_idempotent [] "u1" "h1" "h2" (by simp)).2.1

/-- C6: share(false) always answers with the removal success message and
deletes via deleteOne; under the store's one-record-per-user invariant
the user has no record afterwards, and when no record existed the store
is untouched (deleting a non-existent record is a no-op reported as
success). -/
theorem share_false_clears (links : List LinkRec) (uid fresh : String)
    (hcount : countLinks links uid ≤ 1) :
    shareHandler links uid (.boolv false) fresh =
      (deleteOneByUser links uid, .linkRemoved) ∧
    countLinks (deleteOneByUser links uid) uid = 0 ∧
    ((∀ l ∈ links, l.userId ≠ uid) → deleteOneByUser links uid = links) := by
  exact ⟨shareHandler_falsy rfl, countLinks_deleteOneByUser hcount,
    fun h => deleteOneByUser_not_mem h⟩

/-- Witness for C6 on a store holding one record for the user. -/
theorem share_false_clears_witness :
    countLinks (deleteOneByUser [⟨"u1", "h1"⟩] "u1") "u1" = 0 :=
  (share_false_clears [⟨"u1", "h1"⟩] "u1" "g" (by decide)).2.1

/-- C7: public resolution answers 411 "Sorry, input is invalid" exactly
when no Share-Link record carries the hash; whenever it succeeds it
returns the owning user's username together with every Content record
whose owner is that user, with no further filtering (the only other
failure, a missing user document, is reported with a different
message). -/
theorem brain_resolution_characterization (links : List LinkRec)
    (users : List UserRec) (contents : List ContentDoc) (hash : String) :
    (getBrain links users contents hash = .invalidInput ↔
      ∀ l ∈ links, l.hash ≠ hash) ∧
    (∀ uname cs, getBrain links users contents hash = .ok uname cs →
      ∃ l ∈ links, l.hash = hash ∧
        ∃ u, List.find? (fun u => u.id == l.userId) users = some u ∧
          uname = u.username ∧
          cs = contents.filter (fun c => c.userId == l.userId)) := by
  cases hf : List.find? (fun l => l.hash == hash) links with
  | none =>
    have hall := List.find?_eq_none.mp hf
    constructor
    · constructor
      · intro _ l hl
        simpa using hall l hl
      · intro _
        simp [getBrain, hf]
    · intro uname cs hok
      rw [getBrain, hf] at hok
      exact absurd hok (by simp)
  | some l =>
    have hmem : l ∈ links := List.mem_of_find?_eq_some hf
    have hhash : l.hash = hash := by
      have := List.find?_some hf
      simpa using this
    have hbrain : getBrain links users contents hash =
        (match List.find? (fun u => u.id == l.userId) users with
         | none => BrainResp.userNotFound
         | some u =>
           BrainResp.ok u.username
             (contents.filter (fun c => c.userId == l.userId))) := by
      rw [getBrain, hf]
    constructor
    · constructor
      · intro hinv
        rw [hbrain] at hinv
        cases hu : List.find? (fun u => u.id == l.userId) users with
        | none => rw [hu] at hinv; exact absurd hinv (by simp)
        | some u => rw [hu] at hinv; exact absurd hinv (by simp)
      · intro hnone
        exact absurd hhash (hnone l hmem)
    · intro uname cs hok
      rw [hbrain] at hok
      cases hu : List.find? (fun u => u.id == l.userId) users with
      | none => rw [hu] at hok; exact absurd hok (by simp)
      | some u =>
        rw [hu] at hok
        simp only [BrainResp.ok.injEq] at hok
        exact ⟨l, hmem, hhash, u, hu, hok.1.symm, hok.2.symm⟩

/-- Witness for C7: a concrete store where the hash resolves to the
owner's username and full content list, and an unknown hash answers the
invalid-input error. -/
theorem brain_resolution_characterization_witness :
    getBrain [⟨"u1", "h1"⟩] [⟨"u1", "alice", "pw"⟩]
      [⟨"c1", "u1", "t", none, "", "other", none, none, none⟩,
       ⟨"c2", "u2", "t2", none, "", "other", none, none, none⟩] "zzz" =
      .invalidInput :=
  (brain_resolution_characterization [⟨"u1", "h1"⟩] [⟨"u1", "alice", "pw"⟩]
    [⟨"c1", "u1", "t", none, "", "other", none, none, none⟩,
     ⟨"c2", "u2", "t2", none, "", "other", none, none, none⟩] "zzz").1.mpr
    (by decide)

/-- C8: a delete request naming a content id that exists but is owned by
a different user answers the 404 not-found response (the handler has no
forbidden response at all) and leaves the content collection unchanged,
because the lookup and the deleteOne both require the owner to match. -/
theorem delete_foreign_content_not_found (contents : List ContentDoc)
    (uid cid : String) (d : ContentDoc)
    (hmem : d ∈ contents) (hcid : cid ≠ "")
    (howner : d.userId ≠ uid)
    (huniq : ∀ e ∈ contents, e.id = cid → e = d) :
    deleteContentHandler contents uid (some cid) = (contents, .notFound) ∧
    d ∈ contents := by
  have hfind : List.find? (fun c => c.id == cid && c.userId == uid)
      contents = none := by
    apply List.find?_eq_none.mpr
    intro e he hpred
    simp only [Bool.and_eq_true, beq_iff_eq] at hpred
    exact howner ((huniq e he hpred.1) ▸ hpred.2)
  refine ⟨?_, hmem⟩
  unfold deleteContentHandler
  have ht : jsTruthy (some cid) = true := by
    simp [jsTruthy, hcid]
  rw [ht]
  simp only [Bool.not_true, Bool.false_eq_true, if_false]
  rw [show (some cid).getD "" = cid from rfl, hfind]

/-- Witness for C8: a stranger's delete of content c1 owned by u1 is
answered not-found and the store is untouched. -/
theorem delete_foreign_content_not_found_witness :
    deleteContentHandler
      [⟨"c1", "u1", "t", none, "", "other", none, none, none⟩]
      "attacker" (some "c1") =
      ([⟨"c1", "u1", "t", none, "", "other", none, none, none⟩], .notFound) :=
  (delete_foreign_content_not_found
    [⟨"c1", "u1", "t", none, "", "other", none, none, none⟩]
    "attacker" "c1" ⟨"c1", "u1", "t", none, "", "other", none, none, none⟩
    (by decide) (by decide) (by decide) (by decide)).1

/-- C5 (amended): starting from a state with no Share-Link record for the
user and no record carrying the hash f1, the run share(true)=f1,
share(false), share(true)=f2 re-creates the link with the freshly drawn
token f2; PROVIDED the second draw differs from the first (the code never
checks for collisions, so this holds only up to the 62^-10 per-draw
collision chance), the third response's hash differs from the first
response's hash and the first hash no longer resolves publicly. -/
theorem share_revoke_reshare_rotates (links : List LinkRec)
    (uid f1 g f2 : String) (users : List UserRec)
    (contents : List ContentDoc)
    (h0 : ∀ l ∈ links, l.userId ≠ uid)
    (hhash : ∀ l ∈ links, l.hash ≠ f1)
    (hne : f2 ≠ f1) :
    (shareHandler links uid (.boolv true) f1).2 = .linkCreated f1 ∧
    (shareHandler (shareHandler (shareHandler links uid (.boolv true) f1).1
        uid (.boolv false) g).1 uid (.boolv true) f2).2 = .linkCreated f2 ∧
    (shareHandler (shareHandler (shareHandler links uid (.boolv true) f1).1
        uid (.boolv false) g).1 uid (.boolv true) f2).2.hash? ≠
      (shareHandler links uid (.boolv true) f1).2.hash? ∧
    getBrain (shareHandler (shareHandler (shareHandler links uid
        (.boolv true) f1).1 uid (.boolv false) g).1 uid (.boolv true) f2).1
      users contents f1 = .invalidInput := by
  have hfind : List.find? (fun l => l.userId == uid) links = none :=
    List.find?_eq_none.mpr (fun x hx => by simpa using h0 x hx)
  have h1 := @shareHandler_truthy_none links uid (.boolv true) f1 rfl hfind
  have h2 : shareHandler (links ++ [⟨uid, f1⟩]) uid (.boolv false) g =
      (links, .linkRemoved) := by
    rw [@shareHandler_falsy (links ++ [(⟨uid, f1⟩ : LinkRec)]) uid
      (.boolv false) g rfl,
      deleteOneByUser_append_one h0 rfl]
  have h3 := @shareHandler_truthy_none links uid (.boolv true) f2 rfl hfind
  rw [h1]
  simp only [h2, h3]
  refine ⟨trivial, trivial, ?_, ?_⟩
  · simp [ShareResp.hash?, hne]
  · rw [getBrain]
    have hnone : List.find? (fun l => l.hash == f1) (links ++ [⟨uid, f2⟩]) =
        none := by
      apply List.find?_eq_none.mpr
      intro x hx
      rcases List.mem_append.mp hx with hmem | hmem
      · simpa using hhash x hmem
      · simp only [List.mem_singleton] at hmem
        subst hmem
        simpa using hne
    rw [hnone]

/-- Witness for C5 (amended) from the empty store. -/
theorem share_revoke_reshare_rotates_witness :
    (shareHandler (shareHandler (shareHandler [] "u1" (.boolv true) "h1").1
        "u1" (.boolv false) "g").1 "u1" (.boolv true) "h2").2 =
      .linkCreated "h2" :=
  (share_revoke_reshare_rotates [] "u1" "h1" "g" "h2"
    [⟨"u1", "alice", "pw"⟩] [] (by simp) (by simp) (by decide)).2.1

/-- Counterexample to C5 as stated: the token generator is
`Math.floor(Math.random()*62)` with no collision check, so a run in which
the second draw repeats the first is possible; with the draw oracle stuck
at 0 both share(true) calls generate the hash "AAAAAAAAAA", the third
call's hash equals the first call's hash, and the first hash still
resolves after the sequence. -/
theorem share_revoke_reshare_claim_cex :
    (shareEndpoint (fun _ => (0 : Fin 62)) [] "u1" (.boolv true)).2 =
      .linkCreated "AAAAAAAAAA" ∧
    (shareEndpoint (fun _ => (0 : Fin 62))
      (shareEndpoint (fun _ => (0 : Fin 62))
        (shareEndpoint (fun _ => (0 : Fin 62)) [] "u1" (.boolv true)).1
        "u1" (.boolv false)).1 "u1" (.boolv true)).2 =
      .linkCreated "AAAAAAAAAA" ∧
    getBrain (shareEndpoint (fun _ => (0 : Fin 62))
      (shareEndpoint (fun _ => (0 : Fin 62))
        (shareEndpoint (fun _ => (0 : Fin 62)) [] "u1" (.boolv true)).1
        "u1" (.boolv false)).1 "u1" (.boolv true)).1
      [⟨"u1", "alice", "pw"⟩] [] "AAAAAAAAAA" =
      .ok "alice" [] := by
  decide

theorem jsTruthy_some_of_ne {s : String} (h : s ≠ "") :
    jsTruthy (some s) = true := by
  simp [jsTruthy, h]

theorem jsTruthy_of_trim {o : Option String} (h : jsTrim (o.getD "") ≠ "") :
    jsTruthy o = true := by
  cases o with
  | none => exact absurd jsTrim_empty h
  | some s =>
    exact jsTruthy_some_of_ne (ne_empty_of_jsTrim (by simpa using h))

theorem rawLink_none {req : ContentReq} (h : req.link = none) :
    rawLink req = "" := by simp [rawLink, h]

theorem rawLink_some {req : ContentReq} {l : String} (h : req.link = some l) :
    rawLink req = l := by simp [rawLink, h]

theorem rawDesc_none {req : ContentReq} (h : req.description = none) :
    rawDesc req = "" := by simp [rawDesc, h]

theorem rawDesc_some {req : ContentReq} {d : String}
    (h : req.description = some d) : rawDesc req = d := by simp [rawDesc, h]

theorem applySchema_mk (req : ContentReq) (ty : String) :
    applySchema (mkContentData req ty) =
      { title := jsTrim (req.title.getD "")
        ctype := ty
        userId := req.userId
        description := jsTrim (req.description.getD "")
        link := match req.link with
          | some l => if jsTrim l = "" then none else some (jsTrim l)
          | none => none
        fileName := (req.file.map (·.originalname)).map jsTrim
        filePath := (req.file.map (·.path)).map jsTrim
        fileSize := req.file.map (·.size)
        tags := [] } := by
  cases hl : req.link with
  | none => simp [applySchema, mkContentData, jsTrim_idem, hl]
  | some l =>
    by_cases h : jsTrim l = ""
    · simp [applySchema, mkContentData, jsTrim_idem, hl, h]
    · simp [applySchema, mkContentData, jsTrim_idem, hl, h]

theorem contentModelCreate_saved {d : ContentData}
    (hv : validateSchema (applySchema d) = true)
    (hp : preSaveOk (applySchema d) = true) :
    contentModelCreate d = .saved (applySchema d) := by
  unfold contentModelCreate
  rw [hv, hp]
  rfl

theorem contentModelCreate_hook {d : ContentData}
    (hv : validateSchema (applySchema d) = true)
    (hp : preSaveOk (applySchema d) = false) :
    contentModelCreate d = .hookError := by
  unfold contentModelCreate
  rw [hv, hp]
  rfl

theorem contentModelCreate_invalid {d : ContentData}
    (hv : validateSchema (applySchema d) = false) :
    contentModelCreate d = .validationError := by
  unfold contentModelCreate
  rw [hv]
  rfl

theorem types_ne_empty {ty : String} (h : validTypes.contains ty = true) :
    ty ≠ "" := by
  intro he
  subst he
  exact absurd h (by decide)

theorem handle_main {req : ContentReq} {tt ty : String}
    (htitle : req.title = some tt) (htt : tt ≠ "")
    (hty : req.rtype = some ty) (hvt : validTypes.contains ty = true)
    (hg1 : ((ty == "documents") && req.file.isNone && !jsTruthy req.link)
      = false)
    (hg2 : ((ty == "other") && !jsTruthy req.link && !jsTruthy req.description)
      = false)
    (hg3 : (!((ty == "documents") || (ty == "other")) &&
      (!jsTruthy req.link || !jsTruthy req.description)) = false) :
    handleCreateContent req =
      match contentModelCreate (mkContentData req ty) with
      | .saved c => .created c
      | .validationError => .dbValidationError
      | .hookError => .serverError := by
  have ha : jsTruthy req.title = true := htitle ▸ jsTruthy_some_of_ne htt
  have hb : jsTruthy req.rtype = true :=
    hty ▸ jsTruthy_some_of_ne (types_ne_empty hvt)
  unfold handleCreateContent
  rw [ha, hb, hty]
  simp only [Option.getD_some, Bool.not_true, Bool.or_self, Bool.false_eq_true,
    if_false, hvt, hg1, hg2, hg3]

theorem handle_badRequest_social {req : ContentReq} {tt ty : String}
    (htitle : req.title = some tt) (htt : tt ≠ "")
    (hty : req.rtype = some ty) (hvt : validTypes.contains ty = true)
    (hdoc : (ty == "documents") = false) (hoth : (ty == "other") = false)
    (h : (!jsTruthy req.link || !jsTruthy req.description) = true) :
    handleCreateContent req =
      .badRequest
        "For social media types: title, link, and description are all required" := by
  have ha : jsTruthy req.title = true := htitle ▸ jsTruthy_some_of_ne htt
  have hb : jsTruthy req.rtype = true :=
    hty ▸ jsTruthy_some_of_ne (types_ne_empty hvt)
  unfold handleCreateContent
  rw [ha, hb, hty]
  simp only [Option.getD_some, Bool.not_true, Bool.or_self, Bool.false_eq_true,
    if_false, hvt, hdoc, hoth, h, Bool.false_and, Bool.and_false,
    Bool.false_or, Bool.not_false, Bool.true_and, if_true]

theorem handle_badRequest_other {req : ContentReq} {tt : String}
    (htitle : req.title = some tt) (htt : tt ≠ "")
    (hty : req.rtype = some "other")
    (hl : jsTruthy req.link = false) (hd : jsTruthy req.description = false) :
    handleCreateContent req =
      .badRequest "For other type: either link OR description is required" := by
  have ha : jsTruthy req.title = true := htitle ▸ jsTruthy_some_of_ne htt
  have hb : jsTruthy req.rtype = true :=
    hty ▸ jsTruthy_some_of_ne (by decide)
  unfold handleCreateContent
  rw [ha, hb, hty]
  have c1 : (!validTypes.contains "other") = false := by decide
  have c2 : ("other" == "documents") = false := by decide
  have c3 : ("other" == "other") = true := by decide
  simp only [Option.getD_some, Bool.not_true, Bool.or_self, Bool.false_eq_true,
    if_false, hl, hd, Bool.not_false, Bool.and_true, Bool.true_and,
    Bool.and_false, Bool.false_and, if_true, c1, c2, c3]

theorem handle_badRequest_documents {req : ContentReq} {tt : String}
    (htitle : req.title = some tt) (htt : tt ≠ "")
    (hty : req.rtype = some "documents")
    (hf : req.file = none) (hl : jsTruthy req.link = false) :
    handleCreateContent req =
      .badRequest "For documents: either upload a file OR provide a link" := by
  have ha : jsTruthy req.title = true := htitle ▸ jsTruthy_some_of_ne htt
  have hb : jsTruthy req.rtype = true :=
    hty ▸ jsTruthy_some_of_ne (by decide)
  unfold handleCreateContent
  rw [ha, hb, hty, hf]
  have c1 : (!validTypes.contains "documents") = false := by decide
  have c2 : ("documents" == "documents") = true := by decide
  simp only [Option.getD_some, Bool.not_true, Bool.or_self, Bool.false_eq_true,
    if_false, hl, Option.isNone_none, Bool.not_false, Bool.and_true,
    Bool.true_and, if_true, c1, c2]

theorem mk_ctype (req : ContentReq) (ty : String) :
    (applySchema (mkContentData req ty)).ctype = ty := by
  rw [applySchema_mk]

theorem mk_desc (req : ContentReq) (ty : String) :
    (applySchema (mkContentData req ty)).description = jsTrim (rawDesc req) := by
  rw [applySchema_mk]
  rfl

theorem mk_fileName (req : ContentReq) (ty : String) :
    (applySchema (mkContentData req ty)).fileName =
      (req.file.map (·.originalname)).map jsTrim := by
  rw [applySchema_mk]

theorem mk_link_some {req : ContentReq} {l : String} (ty : String)
    (h : req.link = some l) (hne : jsTrim l ≠ "") :
    (applySchema (mkContentData req ty)).link = some (jsTrim l) := by
  rw [applySchema_mk]
  simp [h, hne]

theorem mk_link_none {req : ContentReq} (ty : String)
    (h : jsTrim (rawLink req) = "") :
    (applySchema (mkContentData req ty)).link = none := by
  rw [applySchema_mk]
  cases hl : req.link with
  | none => simp
  | some l =>
    rw [rawLink_some hl] at h
    simp [hl, h]

theorem validate_mk {req : ContentReq} {tt : String} (ty : String)
    (htitle : req.title = some tt)
    (htrim : jsTrim tt ≠ "") (hlen : (jsTrim tt).length ≤ 200)
    (hurl : ∀ l, req.link = some l → jsTrim l ≠ "" →
      matchesUrlRegex (jsTrim l) = true)
    (hdlen : (jsTrim (rawDesc req)).length ≤ 1000)
    (hfs : ∀ f, req.file = some f → f.size ≤ 10485760)
    (hvt : validTypes.contains ty = true) :
    validateSchema (applySchema (mkContentData req ty)) = true := by
  rw [applySchema_mk]
  unfold validateSchema
  simp only [Bool.and_eq_true]
  refine ⟨⟨⟨⟨⟨?_, ?_⟩, ?_⟩, ?_⟩, ?_⟩, hvt⟩
  · simp [htitle, htrim]
  · simp only [htitle, Option.getD_some, decide_eq_true_eq]
    exact hlen
  · cases hl : req.link with
    | none => rfl
    | some l =>
      by_cases h : jsTrim l = ""
      · simp [h, linkFieldOk]
      · simp [h, linkFieldOk, hurl l hl h]
  · simp only [decide_eq_true_eq]
    exact hdlen
  · cases hf : req.file with
    | none => rfl
    | some f => simp [fileSizeOk, hfs f hf]

/-- C1 (amended): for a social-type submission with a well-formed title
(non-blank after trimming, at most 200 characters), description within the
1000-character bound, any uploaded file within the 10 MiB bound and a link
that is a well-formed http(s) URL whenever it is non-blank after trimming:
creation succeeds iff both link and description are non-empty after
trimming.  When link or description is absent or the empty string the
request fails 400 with the message naming the required fields; when one of
them is non-empty but only whitespace, the save hook's plain Error is
mapped to a generic 500 instead of a validation error. -/
theorem social_creation_characterization (req : ContentReq) (tt ty : String)
    (htitle : req.title = some tt)
    (htrim : jsTrim tt ≠ "") (hlen : (jsTrim tt).length ≤ 200)
    (hty : req.rtype = some ty) (hsoc : ty ∈ socialTypes)
    (hurl : ∀ l, req.link = some l → jsTrim l ≠ "" →
      matchesUrlRegex (jsTrim l) = true)
    (hdlen : (jsTrim (rawDesc req)).length ≤ 1000)
    (hfs : ∀ f, req.file = some f → f.size ≤ 10485760) :
    (isCreated (handleCreateContent req) = true ↔
      (jsTrim (rawLink req) ≠ "" ∧ jsTrim (rawDesc req) ≠ "")) ∧
    ((jsTruthy req.link = false ∨ jsTruthy req.description = false) →
      handleCreateContent req =
        .badRequest
          "For social media types: title, link, and description are all required") ∧
    (jsTruthy req.link = true → jsTruthy req.description = true →
      (jsTrim (rawLink req) = "" ∨ jsTrim (rawDesc req) = "") →
      handleCreateContent req = .serverError) := by
  have htt : tt ≠ "" := ne_empty_of_jsTrim htrim
  have hcases : ty = "linkedin" ∨ ty = "twitter" ∨ ty = "instagram" ∨
      ty = "youtube" ∨ ty = "pinterest" := by
    simpa [socialTypes] using hsoc
  have hvt : validTypes.contains ty = true := by
    rcases hcases with rfl | rfl | rfl | rfl | rfl <;> decide
  have hdocb : (ty == "documents") = false := by
    rcases hcases with rfl | rfl | rfl | rfl | rfl <;> decide
  have hothb : (ty == "other") = false := by
    rcases hcases with rfl | rfl | rfl | rfl | rfl <;> decide
  have hsocb : socialTypes.contains ty = true := by
    rcases hcases with rfl | rfl | rfl | rfl | rfl <;> decide
  have partB : (jsTruthy req.link = false ∨ jsTruthy req.description = false) →
      handleCreateContent req =
        .badRequest
          "For social media types: title, link, and description are all required" := by
    intro h
    apply handle_badRequest_social htitle htt hty hvt hdocb hothb
    rcases h with h | h <;> simp [h]
  have partC : jsTruthy req.link = true → jsTruthy req.description = true →
      (jsTrim (rawLink req) = "" ∨ jsTrim (rawDesc req) = "") →
      handleCreateContent req = .serverError := by
    intro hjl hjd hor
    have hg1 : ((ty == "documents") && req.file.isNone && !jsTruthy req.link)
        = false := by simp [hdocb]
    have hg2 : ((ty == "other") && !jsTruthy req.link &&
        !jsTruthy req.description) = false := by simp [hothb]
    have hg3 : (!((ty == "documents") || (ty == "other")) &&
        (!jsTruthy req.link || !jsTruthy req.description)) = false := by
      simp [hjl, hjd]
    rw [handle_main htitle htt hty hvt hg1 hg2 hg3]
    have hval := validate_mk ty htitle htrim hlen hurl hdlen hfs hvt
    have hpre : preSaveOk (applySchema (mkContentData req ty)) = false := by
      unfold preSaveOk
      rw [mk_ctype, hsocb]
      rcases hor with hor | hor
      · rw [mk_link_none ty hor]
        simp [truthyOpt]
      · rw [mk_desc, hor]
        simp
    rw [contentModelCreate_hook hval hpre]
  have partS : jsTrim (rawLink req) ≠ "" → jsTrim (rawDesc req) ≠ "" →
      isCreated (handleCreateContent req) = true := by
    intro hL hD
    have hjl : jsTruthy req.link = true := jsTruthy_of_trim hL
    have hjd : jsTruthy req.description = true := jsTruthy_of_trim hD
    cases hl : req.link with
    | none =>
      rw [rawLink_none hl] at hL
      exact absurd jsTrim_empty hL
    | some l =>
      rw [rawLink_some hl] at hL
      have hg1 : ((ty == "documents") && req.file.isNone && !jsTruthy req.link)
          = false := by simp [hdocb]
      have hg2 : ((ty == "other") && !jsTruthy req.link &&
          !jsTruthy req.description) = false := by simp [hothb]
      have hg3 : (!((ty == "documents") || (ty == "other")) &&
          (!jsTruthy req.link || !jsTruthy req.description)) = false := by
        simp [hjl, hjd]
      rw [handle_main htitle htt hty hvt hg1 hg2 hg3]
      have hval := validate_mk ty htitle htrim hlen hurl hdlen hfs hvt
      have hpre : preSaveOk (applySchema (mkContentData req ty)) = true := by
        unfold preSaveOk
        have hD2 : (jsTrim (rawDesc req) == "") = false :=
          beq_eq_false_iff_ne.mpr hD
        have hL2 : (jsTrim l == "") = false := beq_eq_false_iff_ne.mpr hL
        rw [mk_ctype, hsocb, mk_link_some ty hl hL, mk_desc, hdocb, hothb]
        simp [truthyOpt, hD2, hL2]
      rw [contentModelCreate_saved hval hpre]
      rfl
  refine ⟨⟨?_, fun h => partS h.1 h.2⟩, partB, partC⟩
  intro hcr
  cases hjl : jsTruthy req.link with
  | false =>
    exfalso
    have hb := partB (Or.inl hjl)
    rw [hb] at hcr
    simp [isCreated] at hcr
  | true =>
    cases hjd : jsTruthy req.description with
    | false =>
      exfalso
      have hb := partB (Or.inr hjd)
      rw [hb] at hcr
      simp [isCreated] at hcr
    | true =>
      by_cases hL : jsTrim (rawLink req) = ""
      · exfalso
        have hc := partC hjl hjd (Or.inl hL)
        rw [hc] at hcr
        simp [isCreated] at hcr
      · by_cases hD : jsTrim (rawDesc req) = ""
        · exfalso
          have hc := partC hjl hjd (Or.inr hD)
          rw [hc] at hcr
          simp [isCreated] at hcr
        · exact ⟨hL, hD⟩

/-- Witness for C1 (amended): a fully well-formed linkedin submission is
created. -/
theorem social_creation_characterization_witness :
    isCreated (handleCreateContent
      ⟨"u1", some "t", some "http://a", some "linkedin", some "d", none⟩)
      = true :=
  (social_creation_characterization
    ⟨"u1", some "t", some "http://a", some "linkedin", some "d", none⟩
    "t" "linkedin" rfl (by decide) (by decide) rfl (by decide)
    (fun l hl hne => by
      injection hl with h
      subst h
      decide)
    (by decide)
    (fun f hf => Option.noConfusion hf)).1.mpr ⟨by decide, by decide⟩

/-- Counterexample to C1 as stated: a linkedin submission whose link "x"
and description "d" are both non-empty after trimming is nevertheless
rejected (the schema's URL validator fails), so creation does not succeed
whenever both fields are non-empty after trimming. -/
theorem social_creation_claim_cex :
    jsTrim "x" ≠ "" ∧ jsTrim "d" ≠ "" ∧
    handleCreateContent
      ⟨"u1", some "t", some "x", some "linkedin", some "d", none⟩ =
      .dbValidationError := by
  decide

/-- C2 (amended): for a type-`other` submission with a well-formed title,
description within the 1000-character bound, any uploaded file within the
10 MiB bound and a link that is a well-formed http(s) URL whenever it is
non-blank after trimming: creation succeeds iff at least one of link and
description is non-empty after trimming.  When both are absent or empty
the request fails 400 with "For other type: either link OR description is
required"; when one is present but only whitespace, the save hook's plain
Error is mapped to a generic 500 instead. -/
theorem other_creation_characterization (req : ContentReq) (tt : String)
    (htitle : req.title = some tt)
    (htrim : jsTrim tt ≠ "") (hlen : (jsTrim tt).length ≤ 200)
    (hty : req.rtype = some "other")
    (hurl : ∀ l, req.link = some l → jsTrim l ≠ "" →
      matchesUrlRegex (jsTrim l) = true)
    (hdlen : (jsTrim (rawDesc req)).length ≤ 1000)
    (hfs : ∀ f, req.file = some f → f.size ≤ 10485760) :
    (isCreated (handleCreateContent req) = true ↔
      (jsTrim (rawLink req) ≠ "" ∨ jsTrim (rawDesc req) ≠ "")) ∧
    ((jsTruthy req.link = false ∧ jsTruthy req.description = false) →
      handleCreateContent req =
        .badRequest "For other type: either link OR description is required") ∧
    ((jsTruthy req.link = true ∨ jsTruthy req.description = true) →
      jsTrim (rawLink req) = "" → jsTrim (rawDesc req) = "" →
      handleCreateContent req = .serverError) := by
  have htt : tt ≠ "" := ne_empty_of_jsTrim htrim
  have hvt : validTypes.contains "other" = true := by decide
  have hdocb : (("other" : String) == "documents") = false := by decide
  have hothb : (("other" : String) == "other") = true := by decide
  have hsocf : socialTypes.contains "other" = false := by decide
  have partB : (jsTruthy req.link = false ∧ jsTruthy req.description = false) →
      handleCreateContent req =
        .badRequest "For other type: either link OR description is required" :=
    fun h => handle_badRequest_other htitle htt hty h.1 h.2
  have partC : (jsTruthy req.link = true ∨ jsTruthy req.description = true) →
      jsTrim (rawLink req) = "" → jsTrim (rawDesc req) = "" →
      handleCreateContent req = .serverError := by
    intro hjor hL hD
    have hg1 : (("other" == "documents") && req.file.isNone &&
        !jsTruthy req.link) = false := by simp [hdocb]
    have hg2 : (("other" == "other") && !jsTruthy req.link &&
        !jsTruthy req.description) = false := by
      rcases hjor with h | h <;> simp [h]
    have hg3 : (!(("other" == "documents") || ("other" == "other")) &&
        (!jsTruthy req.link || !jsTruthy req.description)) = false := by
      simp [hothb]
    rw [handle_main htitle htt hty hvt hg1 hg2 hg3]
    have hval := validate_mk "other" htitle htrim hlen hurl hdlen hfs hvt
    have hpre : preSaveOk (applySchema (mkContentData req "other")) = false := by
      unfold preSaveOk
      rw [mk_ctype, mk_link_none "other" hL, mk_desc, hD]
      simp [truthyOpt, hsocf, hdocb, hothb]
    rw [contentModelCreate_hook hval hpre]
  have partS : (jsTrim (rawLink req) ≠ "" ∨ jsTrim (rawDesc req) ≠ "") →
      isCreated (handleCreateContent req) = true := by
    intro hor
    have hjor : jsTruthy req.link = true ∨ jsTruthy req.description = true :=
      hor.imp jsTruthy_of_trim jsTruthy_of_trim
    have hg1 : (("other" == "documents") && req.file.isNone &&
        !jsTruthy req.link) = false := by simp [hdocb]
    have hg2 : (("other" == "other") && !jsTruthy req.link &&
        !jsTruthy req.description) = false := by
      rcases hjor with h | h <;> simp [h]
    have hg3 : (!(("other" == "documents") || ("other" == "other")) &&
        (!jsTruthy req.link || !jsTruthy req.description)) = false := by
      simp [hothb]
    rw [handle_main htitle htt hty hvt hg1 hg2 hg3]
    have hval := validate_mk "other" htitle htrim hlen hurl hdlen hfs hvt
    have hpre : preSaveOk (applySchema (mkContentData req "other")) = true := by
      unfold preSaveOk
      rw [mk_ctype, mk_desc]
      rcases hor with hL | hD
      · cases hl : req.link with
        | none =>
          rw [rawLink_none hl] at hL
          exact absurd jsTrim_empty hL
        | some l =>
          rw [rawLink_some hl] at hL
          have hL2 : (jsTrim l == "") = false := beq_eq_false_iff_ne.mpr hL
          rw [mk_link_some "other" hl hL]
          simp [truthyOpt, hsocf, hdocb, hothb, hL2,
            show "other" ∉ socialTypes from by decide]
      · have hD2 : (jsTrim (rawDesc req) == "") = false :=
          beq_eq_false_iff_ne.mpr hD
        simp [hsocf, hdocb, hothb, hD2]
        exact Or.inl (by decide)
    rw [contentModelCreate_saved hval hpre]
    rfl
  refine ⟨⟨?_, partS⟩, partB, partC⟩
  intro hcr
  by_contra hnot
  push_neg at hnot
  obtain ⟨hL, hD⟩ := hnot
  cases hjl : jsTruthy req.link with
  | true =>
    have hc := partC (Or.inl hjl) hL hD
    rw [hc] at hcr
    simp [isCreated] at hcr
  | false =>
    cases hjd : jsTruthy req.description with
    | true =>
      have hc := partC (Or.inr hjd) hL hD
      rw [hc] at hcr
      simp [isCreated] at hcr
    | false =>
      have hb := partB ⟨hjl, hjd⟩
      rw [hb] at hcr
      simp [isCreated] at hcr

/-- Witness for C2 (amended): an `other` submission with only a
description is created. -/
theorem other_creation_characterization_witness :
    isCreated (handleCreateContent
      ⟨"u1", some "t", none, some "other", some "d", none⟩) = true :=
  (other_creation_characterization
    ⟨"u1", some "t", none, some "other", some "d", none⟩
    "t" rfl (by decide) (by decide) rfl
    (fun l hl hne => Option.noConfusion hl)
    (by decide)
    (fun f hf => Option.noConfusion hf)).1.mpr (Or.inr (by decide))

/-- Counterexample to C2 as stated: an `other` submission with link "x"
present (and no description) is rejected by the schema's URL validator,
so presence of one of the two fields does not suffice for creation to
succeed. -/
theorem other_creation_claim_cex :
    jsTruthy (some "x") = true ∧
    handleCreateContent ⟨"u1", some "t", some "x", some "other", none, none⟩
      = .dbValidationError := by
  decide

/-- C3 (amended): for a type-`documents` submission with a well-formed
title, description within the 1000-character bound, any uploaded file
within the 10 MiB bound and with a non-blank original name, and a link
that is a well-formed http(s) URL whenever it is non-blank after trimming:
creation succeeds iff at least one of an uploaded file or a link
non-empty after trimming is present.  When both file and link are absent
the request fails 400 with "For documents: either upload a file OR
provide a link"; a whitespace-only link with no file instead fails with a
generic 500 from the save hook's plain Error. -/
theorem documents_creation_characterization (req : ContentReq) (tt : String)
    (htitle : req.title = some tt)
    (htrim : jsTrim tt ≠ "") (hlen : (jsTrim tt).length ≤ 200)
    (hty : req.rtype = some "documents")
    (hurl : ∀ l, req.link = some l → jsTrim l ≠ "" →
      matchesUrlRegex (jsTrim l) = true)
    (hdlen : (jsTrim (rawDesc req)).length ≤ 1000)
    (hfile : ∀ f, req.file = some f →
      f.size ≤ 10485760 ∧ jsTrim f.originalname ≠ "") :
    (isCreated (handleCreateContent req) = true ↔
      (req.file ≠ none ∨ jsTrim (rawLink req) ≠ "")) ∧
    ((req.file = none ∧ jsTruthy req.link = false) →
      handleCreateContent req =
        .badRequest "For documents: either upload a file OR provide a link") ∧
    ((req.file = none ∧ jsTruthy req.link = true ∧
        jsTrim (rawLink req) = "") →
      handleCreateContent req = .serverError) := by
  have htt : tt ≠ "" := ne_empty_of_jsTrim htrim
  have hfs : ∀ f, req.file = some f → f.size ≤ 10485760 :=
    fun f hf => (hfile f hf).1
  have hvt : validTypes.contains "documents" = true := by decide
  have hdocb : (("documents" : String) == "documents") = true := by decide
  have hothb : (("documents" : String) == "other") = false := by decide
  have hsocf : socialTypes.contains "documents" = false := by decide
  have partB : (req.file = none ∧ jsTruthy req.link = false) →
      handleCreateContent req =
        .badRequest "For documents: either upload a file OR provide a link" :=
    fun h => handle_badRequest_documents htitle htt hty h.1 h.2
  have partC : (req.file = none ∧ jsTruthy req.link = true ∧
      jsTrim (rawLink req) = "") →
      handleCreateContent req = .serverError := by
    rintro ⟨hf, hjl, hL⟩
    have hg1 : (("documents" == "documents") && req.file.isNone &&
        !jsTruthy req.link) = false := by simp [hjl]
    have hg2 : (("documents" == "other") && !jsTruthy req.link &&
        !jsTruthy req.description) = false := by simp [hothb]
    have hg3 : (!(("documents" == "documents") || ("documents" == "other")) &&
        (!jsTruthy req.link || !jsTruthy req.description)) = false := by
      simp [hdocb]
    rw [handle_main htitle htt hty hvt hg1 hg2 hg3]
    have hval := validate_mk "documents" htitle htrim hlen hurl hdlen hfs hvt
    have hpre : preSaveOk (applySchema (mkContentData req "documents"))
        = false := by
      unfold preSaveOk
      rw [mk_ctype, mk_fileName, mk_link_none "documents" hL, hf]
      simp [truthyOpt, hsocf, hdocb]
    rw [contentModelCreate_hook hval hpre]
  have partS : (req.file ≠ none ∨ jsTrim (rawLink req) ≠ "") →
      isCreated (handleCreateContent req) = true := by
    intro hor
    have hg2 : (("documents" == "other") && !jsTruthy req.link &&
        !jsTruthy req.description) = false := by simp [hothb]
    have hg3 : (!(("documents" == "documents") || ("documents" == "other")) &&
        (!jsTruthy req.link || !jsTruthy req.description)) = false := by
      simp [hdocb]
    have hg1 : (("documents" == "documents") && req.file.isNone &&
        !jsTruthy req.link) = false := by
      rcases hor with hf | hL
      · cases hff : req.file with
        | none => exact absurd hff hf
        | some f => simp [hff]
      · simp [jsTruthy_of_trim hL]
    rw [handle_main htitle htt hty hvt hg1 hg2 hg3]
    have hval := validate_mk "documents" htitle htrim hlen hurl hdlen hfs hvt
    have hpre : preSaveOk (applySchema (mkContentData req "documents"))
        = true := by
      unfold preSaveOk
      rw [mk_ctype, mk_fileName]
      rcases hor with hf | hL
      · cases hff : req.file with
        | none => exact absurd hff hf
        | some f =>
          have hfn : (jsTrim f.originalname == "") = false :=
            beq_eq_false_iff_ne.mpr (hfile f hff).2
          simp [truthyOpt, hsocf, hothb, hfn]
          exact Or.inl (by decide)
      · cases hl : req.link with
        | none =>
          rw [rawLink_none hl] at hL
          exact absurd jsTrim_empty hL
        | some l =>
          rw [rawLink_some hl] at hL
          have hL2 : (jsTrim l == "") = false := beq_eq_false_iff_ne.mpr hL
          rw [mk_link_some "documents" hl hL]
          simp [truthyOpt, hsocf, hothb, hL2]
          exact Or.inl (by decide)
    rw [contentModelCreate_saved hval hpre]
    rfl
  refine ⟨⟨?_, partS⟩, partB, partC⟩
  intro hcr
  by_contra hnot
  push_neg at hnot
  obtain ⟨hf, hL⟩ := hnot
  cases hjl : jsTruthy req.link with
  | true =>
    have hc := partC ⟨hf, hjl, hL⟩
    rw [hc] at hcr
    simp [isCreated] at hcr
  | false =>
    have hb := partB ⟨hf, hjl⟩
    rw [hb] at hcr
    simp [isCreated] at hcr

/-- Witness for C3 (amended): a documents submission with an uploaded
file and no link is created. -/
theorem documents_creation_characterization_witness :
    isCreated (handleCreateContent
      ⟨"u1", some "t", none, some "documents", none,
        some ⟨"f.pdf", "uploads/f.pdf", 5⟩⟩) = true :=
  (documents_creation_characterization
    ⟨"u1", some "t", none, some "documents", none,
      some ⟨"f.pdf", "uploads/f.pdf", 5⟩⟩
    "t" rfl (by decide) (by decide) rfl
    (fun l hl hne => Option.noConfusion hl)
    (by decide)
    (fun f hf => by
      injection hf with h
      subst h
      exact ⟨by decide, by decide⟩)).1.mpr (Or.inl (by decide))

/-- Counterexample to C3 as stated: a documents submission with no file
but with link "x" present is rejected by the schema's URL validator, so
presence of a link does not suffice for creation to succeed. -/
theorem documents_creation_claim_cex :
    jsTruthy (some "x") = true ∧
    handleCreateContent
      ⟨"u1", some "t", some "x", some "documents", none, none⟩
      = .dbValidationError := by
  decide
